import Mathlib

/-!
Verification development for the project-search component
(crates/search/src/project_search.rs).

The Rust source is shallowly embedded: record structures mirror the Rust
structs, pure functions become Lean functions, and the stateful async
lifecycle of ProjectSearch::search becomes an explicit step relation on a
session state.  External collaborators (the globset glob compiler, the
regex engine, the match-index helpers of the editor crate) are not part of the
source file; they are either abstracted by predicates passed as parameters
or modelled from the specification, as noted on each definition.
-/

set_option autoImplicit false

namespace ZedSearch

/-! ### Glob filter compiler (ProjectSearchView::load_glob_set) -/

/-- Splits a character list on the comma character, mirroring the Rust
iterator text.split with a comma separator: n separators yield n+1
segments, empty segments included. -/
def splitOnComma : List Char → List (List Char)
  | [] => [[]]
  | c :: rest =>
    if c = ',' then [] :: splitOnComma rest
    else
      match splitOnComma rest with
      | g :: gs => (c :: g) :: gs
      | [] => [[c]]

/-- Removes leading and trailing whitespace characters, mirroring
str::trim in the source. -/
def trimChars (cs : List Char) : List Char :=
  ((cs.dropWhile Char.isWhitespace).reverse.dropWhile Char.isWhitespace).reverse

/-- Compiles each glob segment in order, stopping at the first failure,
mirroring the collect over an iterator of Results in load_glob_set.  The
external globset compiler is abstracted by the predicate ok; a compiled
matcher is represented by its source text. -/
def compile_globs (ok : String → Bool) : List String → Option (List String)
  | [] => some []
  | g :: rest => if ok g then (compile_globs ok rest).map (g :: ·) else none

/-- Embeds ProjectSearchView::load_glob_set: split the field text on
commas, trim each segment, drop empty segments, and compile the rest,
failing if any segment fails to compile. -/
def load_glob_set (ok : String → Bool) (text : String) : Option (List String) :=
  compile_globs ok
    ((((splitOnComma text.data).map (fun cs => String.mk (trimChars cs))).filter
      (fun s => !(s == ""))))

/-! ### Search queries (project::search::SearchQuery, as used by the source) -/

/-- Mirror of the SearchQuery value built by build_search_query: the
query text, the mode flags, and the compiled include/exclude matchers. -/
structure SearchQuery where
  query : String
  is_regex : Bool
  whole_word : Bool
  case_sensitive : Bool
  files_to_include : List String
  files_to_exclude : List String
deriving DecidableEq

/-- Embeds the SearchQuery::text constructor used on the non-regex path:
plain text queries always construct successfully. -/
def SearchQuery.mkText (q : String) (ww cs : Bool) (inc exc : List String) : SearchQuery :=
  { query := q, is_regex := false, whole_word := ww, case_sensitive := cs,
    files_to_include := inc, files_to_exclude := exc }

/-- Modelled from the spec: SearchQuery::regex (project crate, outside
this source file) compiles the pattern as a regular expression and fails
when it is invalid; validity of the external regex engine is abstracted
by the okRegex predicate. -/
def SearchQuery.mkRegex (okRegex : String → Bool) (q : String) (ww cs : Bool)
    (inc exc : List String) : Option SearchQuery :=
  if okRegex q then
    some { query := q, is_regex := true, whole_word := ww, case_sensitive := cs,
           files_to_include := inc, files_to_exclude := exc }
  else
    none

/-! ### Query builder (ProjectSearchView::build_search_query) -/

/-- Mirror of the panels_with_errors HashSet of InputPanel values: one
membership flag per input panel (Query, Include, Exclude). -/
structure PanelErrors where
  query : Bool
  inc : Bool
  exc : Bool
deriving DecidableEq

/-- The slice of ProjectSearchView state read and written by
build_search_query: the three editor texts, the option flags, and the
error-marker set. -/
structure QueryViewState where
  query_text : String
  included_text : String
  excluded_text : String
  regex : Bool
  whole_word : Bool
  case_sensitive : Bool
  panels_with_errors : PanelErrors
deriving DecidableEq

/-- Embeds ProjectSearchView::build_search_query.  The include field is
loaded first; on failure the Include marker is inserted and the function
returns None immediately, leaving the Exclude and Query markers
untouched.  On include success the Include marker is removed and the
exclude field is loaded, with the analogous early return.  With both
glob sets compiled, the regex path constructs SearchQuery::regex and
inserts or removes the Query marker accordingly, while the non-regex
path constructs SearchQuery::text without touching the Query marker.
The per-path marker states below are the composition of the remove and
insert calls performed along that control path in the source. -/
def build_search_query (okGlob okRegex : String → Bool) (v : QueryViewState) :
    QueryViewState × Option SearchQuery :=
  match load_glob_set okGlob v.included_text with
  | none =>
    ({ v with panels_with_errors := { v.panels_with_errors with inc := true } }, none)
  | some included_files =>
    match load_glob_set okGlob v.excluded_text with
    | none =>
      ({ v with panels_with_errors :=
          { v.panels_with_errors with inc := false, exc := true } }, none)
    | some excluded_files =>
      if v.regex then
        match SearchQuery.mkRegex okRegex v.query_text v.whole_word v.case_sensitive
            included_files excluded_files with
        | some q =>
          ({ v with panels_with_errors :=
              { v.panels_with_errors with query := false, inc := false, exc := false } },
           some q)
        | none =>
          ({ v with panels_with_errors :=
              { v.panels_with_errors with query := true, inc := false, exc := false } },
           none)
      else
        ({ v with panels_with_errors :=
            { v.panels_with_errors with inc := false, exc := false } },
         some (SearchQuery.mkText v.query_text v.whole_word v.case_sensitive
            included_files excluded_files))

/-! ### Search session (ProjectSearch and ProjectSearch::search)

The async lifecycle of ProjectSearch::search is embedded as a labelled
transition system.  A spawned search task is identified by the search_id
generation it captured; an entry appended to match_ranges carries (as a
ghost annotation) the generation of the task that pushed it.  Replacing
pending_search in a later call drops the previous gpui Task, which
cancels it: in the relation this is reflected by every task step
requiring that the stepping task is still the one stored in
pending_search. -/

/-- An anchored match region; anchors are abstracted to numeric
positions. -/
structure MatchRange where
  lo : Nat
  hi : Nat
deriving DecidableEq

/-- A match range recorded in ProjectSearch::match_ranges, together with
the ghost generation of the search task that pushed it. -/
structure TaggedRange where
  gen : Nat
  range : MatchRange
deriving DecidableEq

/-- The phases of one spawned search task: awaiting the project search
future, streaming excerpt ranges, or terminated early by a backend
error (the log_err question-mark return path). -/
inductive TaskPhase
  | awaitingSearch
  | streaming
  | errored
deriving DecidableEq

/-- The task stored in pending_search: its captured generation and its
current phase. -/
structure PendingTask where
  gen : Nat
  phase : TaskPhase
deriving DecidableEq

/-- Mirror of the ProjectSearch model state: the monotonically bumped
search_id, the active query, the accumulated match ranges, and the
stored pending task (None once the stream completes). -/
structure Session where
  search_id : Nat
  active_query : Option SearchQuery
  match_ranges : List TaggedRange
  pending_search : Option PendingTask
deriving DecidableEq

/-- The freshly constructed ProjectSearch model (ProjectSearch::new). -/
def Session.init : Session :=
  { search_id := 0, active_query := none, match_ranges := [], pending_search := none }

/-- The synchronous prefix of ProjectSearch::search: bump search_id,
store the query, clear match_ranges, and store a fresh task capturing
the new generation (replacing, and thereby cancelling, any previous
task). -/
def Session.doSearch (s : Session) (q : SearchQuery) : Session :=
  { search_id := s.search_id + 1,
    active_query := some q,
    match_ranges := [],
    pending_search := some { gen := s.search_id + 1, phase := .awaitingSearch } }

/-- The is_pending observation: a search task is stored. -/
def Session.is_pending (s : Session) : Bool :=
  s.pending_search.isSome

/-- One atomic step of the session or of its stored search task.  Task
steps require the stepping task to still be the stored pending task:
a task dropped by a later doSearch never steps again. -/
inductive SessionStep : Session → Session → Prop
  | search (q : SearchQuery) (s : Session) :
      SessionStep s (s.doSearch q)
  | backend_err (s : Session) (g : Nat) :
      s.pending_search = some { gen := g, phase := .awaitingSearch } →
      SessionStep s { s with pending_search := some { gen := g, phase := .errored } }
  | backend_ok (s : Session) (g : Nat) :
      s.pending_search = some { gen := g, phase := .awaitingSearch } →
      SessionStep s { s with match_ranges := [],
                             pending_search := some { gen := g, phase := .streaming } }
  | push (s : Session) (g : Nat) (r : MatchRange) :
      s.pending_search = some { gen := g, phase := .streaming } →
      SessionStep s { s with match_ranges := s.match_ranges ++ [{ gen := g, range := r }] }
  | complete (s : Session) (g : Nat) :
      s.pending_search = some { gen := g, phase := .streaming } →
      SessionStep s { s with pending_search := none }

/-- Reflexive-transitive closure of SessionStep. -/
inductive SessionReach : Session → Session → Prop
  | refl (s : Session) : SessionReach s s
  | step {s t u : Session} :
      SessionReach s t → SessionStep t u → SessionReach s u

theorem SessionReach.trans {a b c : Session}
    (h1 : SessionReach a b) (h2 : SessionReach b c) : SessionReach a c := by
  induction h2 with
  | refl => exact h1
  | step _ hstep ih => exact .step ih hstep

/-- The race-safety invariant: every recorded match range was pushed by
the current generation, and the stored task (if any) carries the
current generation. -/
def SessionInv (s : Session) : Prop :=
  (∀ e ∈ s.match_ranges, e.gen = s.search_id) ∧
  (∀ p, s.pending_search = some p → p.gen = s.search_id)

theorem sessionInv_init : SessionInv Session.init := by
  constructor
  · intro e he; simp [Session.init] at he
  · intro p hp; simp [Session.init] at hp

theorem sessionInv_step {s t : Session}
    (h : SessionStep s t) (hs : SessionInv s) : SessionInv t := by
  obtain ⟨hranges, hpend⟩ := hs
  cases h with
  | search q s =>
    constructor
    · intro e he; simp [Session.doSearch] at he
    · intro p hp
      simp [Session.doSearch] at hp
      simp [← hp, Session.doSearch]
  | backend_err s g hg =>
    constructor
    · intro e he; exact hranges e he
    · intro p hp
      simp at hp
      have := hpend _ hg
      simp [← hp]
      exact this
  | backend_ok s g hg =>
    constructor
    · intro e he; simp at he
    · intro p hp
      simp at hp
      have := hpend _ hg
      simp [← hp]
      exact this
  | push s g r hg =>
    constructor
    · intro e he
      simp at he
      rcases he with he | he
      · exact hranges e he
      · simp [he]; exact hpend _ hg
    · intro p hp; exact hpend p hp
  | complete s g hg =>
    constructor
    · intro e he; exact hranges e he
    · intro p hp; simp at hp

theorem sessionInv_reach {s : Session}
    (h : SessionReach Session.init s) : SessionInv s := by
  induction h with
  | refl => exact sessionInv_init
  | step _ hstep ih => exact sessionInv_step hstep ih

theorem sessionStep_id_le {s t : Session} (h : SessionStep s t) :
    s.search_id ≤ t.search_id := by
  cases h <;> simp [Session.doSearch]

theorem sessionReach_id_le {s t : Session} (h : SessionReach s t) :
    s.search_id ≤ t.search_id := by
  induction h with
  | refl => exact Nat.le_refl _
  | step _ hstep ih => exact Nat.le_trans ih (sessionStep_id_le hstep)

/-! ### Match navigator (select_match, model_changed, update_match_index)

The results editor is abstracted to its newest selection head (a caret
position) plus the currently selected range; the editor-crate helpers
used by the view, which live outside this source file, are modelled from
the spec as noted. -/

/-- Navigation direction (workspace::searchable::Direction). -/
inductive Direction
  | Prev
  | Next
deriving DecidableEq

/-- Modelled from the spec: the match_index_for_direction helper of the editor crate
(outside this source file): Next is the successor index modulo
the match count, Prev wraps from zero to the last index. -/
def match_index_for_direction (n i : Nat) (dir : Direction) : Nat :=
  match dir with
  | .Next => (i + 1) % n
  | .Prev => if i = 0 then n - 1 else i - 1

/-- Modelled from the spec: the active_match_index helper of the editor crate
(outside this source file): the index of the match range that contains,
or most closely follows, the caret over the sorted match ranges; none
when the caret lies beyond every range. -/
def activeMatchIndexOf : List MatchRange → Nat → Option Nat
  | [], _ => none
  | r :: rs, caret =>
    if caret ≤ r.hi then some 0
    else (activeMatchIndexOf rs caret).map (· + 1)

/-- The slice of ProjectSearchView state involved in match navigation:
the match ranges and search_id of the model, the recorded search_id
and active_match_index of the view, the selected range and caret of the results editor
(newest selection head), and whether the query editor is focused. -/
structure NavView where
  match_ranges : List MatchRange
  model_search_id : Nat
  search_id : Nat
  active_match_index : Option Nat
  selected : Option MatchRange
  caret : Nat
  query_focused : Bool
deriving DecidableEq

/-- Embeds ProjectSearchView::update_match_index: recompute
active_match_index from the match ranges of the model and the caret. -/
def update_match_index (v : NavView) : NavView :=
  { v with active_match_index := activeMatchIndexOf v.match_ranges v.caret }

/-- Embeds editor.change_selections selecting a single range, followed
by the SelectionsChanged subscription installed in ProjectSearchView::new,
which reruns update_match_index: the selection becomes the range, the
caret moves to its head (the range end), and the active index is
resynchronised. -/
def change_selections (r : MatchRange) (v : NavView) : NavView :=
  update_match_index { v with selected := some r, caret := r.hi }

/-- Embeds ProjectSearchView::select_match: a no-op when
active_match_index is None; otherwise computes the wrapped neighbour
index and selects that range.  The source indexes match_ranges directly
(which would be out of bounds only for an invalid active index); the
out-of-range lookup is embedded as a no-op. -/
def select_match (dir : Direction) (v : NavView) : NavView :=
  match v.active_match_index with
  | none => v
  | some i =>
    match v.match_ranges.get? (match_index_for_direction v.match_ranges.length i dir) with
    | none => v
    | some r => change_selections r v

/-- The mem::replace of the search_id of the view with that of the model inside
model_changed. -/
def refresh_search_id (v : NavView) : NavView :=
  { v with search_id := v.model_search_id }

/-- The jump performed for a new search inside model_changed: select the
first match range (select_ranges over the optional first range selects
nothing when there is none). -/
def jump_to_first_match (v : NavView) : NavView :=
  match v.match_ranges.head? with
  | some r => change_selections r v
  | none => v

/-- The focus move of focus_results_editor as far as this slice records
it: the query editor loses focus in favour of the results editor. -/
def clear_query_focus (v : NavView) : NavView :=
  { v with query_focused := false }

/-- Embeds ProjectSearchView::model_changed: with no matches the active
index is cleared; otherwise the active index is reset to 0, a Next
navigation is performed unconditionally, the index is resynchronised,
the search_id of the view is refreshed from the model (is_new_search holds
when the two differed), and only for a new search the first match is
selected and focus moves from the query editor to the results
editor. -/
def model_changed (v : NavView) : NavView :=
  if v.match_ranges.isEmpty then
    { v with active_match_index := none }
  else
    let v2 := update_match_index (select_match .Next { v with active_match_index := some 0 })
    let isNew : Bool := v2.model_search_id != v2.search_id
    let v4 :=
      if isNew then jump_to_first_match (refresh_search_id v2)
      else refresh_search_id v2
    if isNew && v4.query_focused then clear_query_focus v4 else v4

/-- Validity of the active match index: an index is only ever a valid
position into the match ranges, and an empty match set forces None. -/
def NavWF (v : NavView) : Prop :=
  (v.match_ranges = [] → v.active_match_index = none) ∧
  (∀ i, v.active_match_index = some i → i < v.match_ranges.length)

theorem activeMatchIndexOf_lt {rs : List MatchRange} {c i : Nat}
    (h : activeMatchIndexOf rs c = some i) : i < rs.length := by
  induction rs generalizing i with
  | nil => simp [activeMatchIndexOf] at h
  | cons r rest ih =>
    simp only [activeMatchIndexOf] at h
    split at h
    · simp at h
      simp [← h]
    · simp at h
      obtain ⟨j, hj, hji⟩ := h
      have := ih hj
      simp [← hji]
      omega

theorem navWF_update (v : NavView) : NavWF (update_match_index v) := by
  constructor
  · intro h
    simp [update_match_index] at h ⊢
    simp [h, activeMatchIndexOf]
  · intro i hi
    simp [update_match_index] at hi ⊢
    exact activeMatchIndexOf_lt hi

theorem navWF_change (r : MatchRange) (v : NavView) :
    NavWF (change_selections r v) := navWF_update _

theorem navWF_select (dir : Direction) (v : NavView) (h : NavWF v) :
    NavWF (select_match dir v) := by
  unfold select_match
  split
  · exact h
  · split
    · exact h
    · exact navWF_change _ v

theorem navWF_of_fields {w w' : NavView}
    (hr : w'.match_ranges = w.match_ranges)
    (ha : w'.active_match_index = w.active_match_index)
    (h : NavWF w) : NavWF w' := by
  constructor
  · intro he; rw [hr] at he; rw [ha]; exact h.1 he
  · intro i hi; rw [ha] at hi; rw [hr]; exact h.2 i hi

theorem navWF_refresh (w : NavView) (h : NavWF w) : NavWF (refresh_search_id w) :=
  navWF_of_fields rfl rfl h

theorem navWF_jump (w : NavView) (h : NavWF w) : NavWF (jump_to_first_match w) := by
  unfold jump_to_first_match
  split
  · exact navWF_change _ _
  · exact h

theorem navWF_clear_focus (w : NavView) (h : NavWF w) : NavWF (clear_query_focus w) :=
  navWF_of_fields rfl rfl h

theorem navWF_ite (c : Prop) [Decidable c] (w w' : NavView)
    (h : NavWF w) (h' : NavWF w') : NavWF (if c then w else w') := by
  split
  · exact h
  · exact h'

theorem select_match_search_id (dir : Direction) (w : NavView) :
    (select_match dir w).search_id = w.search_id := by
  unfold select_match
  split
  · rfl
  · split
    · rfl
    · rfl

theorem select_match_model_search_id (dir : Direction) (w : NavView) :
    (select_match dir w).model_search_id = w.model_search_id := by
  unfold select_match
  split
  · rfl
  · split
    · rfl
    · rfl

/-! ### Semantic search coordination

Embeds the SemanticSearchState struct, the semantic branch of
ProjectSearchView::search, the completion handler of the spawned
semantic query task, and the indexing-progress listener spawned in
ProjectSearchBar::toggle_semantic_search.  Tasks are identified by
numeric ids so that replacing one task by another is observable. -/

/-- Mirror of SemanticSearchState: indexing progress counters and the
optional running query task (identified by a numeric id; the progress
task itself is embedded as the progress_listener function below). -/
structure SemanticSearchState where
  file_count : Nat
  outstanding_file_count : Nat
  search_task : Option Nat
deriving DecidableEq

/-- The slice of ProjectSearchView state involved in semantic search:
the optional semantic state, the query editor text, a fresh task-id
supply, the list of (task id, phrase) requests dispatched to the
semantic index, the session match ranges, and a change-notification
counter. -/
structure SemanticView where
  semantic : Option SemanticSearchState
  query_text : String
  next_task_id : Nat
  dispatched : List (Nat × String)
  match_ranges : List MatchRange
  notify_count : Nat
deriving DecidableEq

/-- Embeds the semantic branch of ProjectSearchView::search: with no
semantic state the branch is not taken (the text-search path, embedded
by build_search_query and Session, runs instead, represented here as the
identity on the semantic slice).  With semantic state, a positive
outstanding_file_count returns early; otherwise, when the global
semantic index exists, the phrase is dispatched and the spawned task is
stored in search_task, unconditionally replacing (and thereby dropping)
any task already stored there. -/
def semantic_search_request (index_available : Bool) (v : SemanticView) : SemanticView :=
  match v.semantic with
  | none => v
  | some sem =>
    if sem.outstanding_file_count > 0 then v
    else if index_available then
      { v with
        semantic := some { sem with search_task := some v.next_task_id },
        next_task_id := v.next_task_id + 1,
        dispatched := v.dispatched ++ [(v.next_task_id, v.query_text)] }
    else v

/-- Embeds the completion handler of the spawned semantic query task
(the body after the search task future resolves): the ranked results are
only passed to dbg and dropped (the source carries a TODO comment in
place of applying them), and search_task is cleared. -/
def semantic_search_completed (_results : List MatchRange) (v : SemanticView) : SemanticView :=
  { v with semantic :=
      match v.semantic with
      | some sem => some { sem with search_task := none }
      | none => none }

/-- Embeds the body of the progress listener for one received channel
value: when semantic state is present, outstanding_file_count is
replaced by the value and a change notification is emitted.  The
conditional return after a zero value in the source exits only the
update closure, which ends immediately afterwards anyway, so it has no
effect and does not appear here. -/
def progress_update (count : Nat) (v : SemanticView) : SemanticView :=
  match v.semantic with
  | some sem =>
    { v with semantic := some { sem with outstanding_file_count := count },
             notify_count := v.notify_count + 1 }
  | none => v

/-- Embeds the progress listener loop: it consumes every value the
channel delivers and stops only when the channel closes (the end of the
list). -/
def progress_listener (counts : List Nat) (v : SemanticView) : SemanticView :=
  match counts with
  | [] => v
  | c :: rest => progress_listener rest (progress_update c v)

/-! ### Sanity checks against the scenario of the test in the source itself

Three matches sorted by path; a fresh view observes the first batch,
lands on match 0 with focus moved to the results editor, and Next
navigation visits 1, 2, 0. -/

def sanityRanges : List MatchRange := [⟨10, 13⟩, ⟨15, 18⟩, ⟨30, 33⟩]

def sanityView : NavView :=
  { match_ranges := sanityRanges, model_search_id := 1, search_id := 0,
    active_match_index := none, selected := none, caret := 0, query_focused := true }

example : (model_changed sanityView).active_match_index = some 0 := by decide
example : (model_changed sanityView).selected = some ⟨10, 13⟩ := by decide
example : (model_changed sanityView).query_focused = false := by decide
example :
    (select_match .Next (model_changed sanityView)).active_match_index = some 1 := by decide
example :
    (select_match .Next (select_match .Next (select_match .Next
      (model_changed sanityView)))).active_match_index = some 0 := by decide
example :
    (select_match .Prev (model_changed sanityView)).active_match_index = some 2 := by decide

/-! ### Claim C1: staleness law -/

/-- C1: if ProjectSearch::search runs with q1 and is later superseded by
a call with q2 (in particular before the stream of q1 completes), then in
every state reachable after the q2 call no match range produced by the
q1 execution is present in match_ranges: only results belonging to the
latest search_id are retained. -/
theorem stale_results_discarded (q1 q2 : SearchQuery) (s0 t u : Session)
    (h0 : SessionReach Session.init s0)
    (ht : SessionReach (s0.doSearch q1) t)
    (hu : SessionReach (t.doSearch q2) u) :
    ∀ e ∈ u.match_ranges, e.gen ≠ (s0.doSearch q1).search_id := by
  intro e he hgen
  have hreach : SessionReach Session.init u :=
    ((((h0.step (.search q1 s0)).trans ht).step (.search q2 t)).trans hu)
  have hinv := sessionInv_reach hreach
  have h1 : (s0.doSearch q1).search_id ≤ t.search_id := sessionReach_id_le ht
  have h2 : (t.doSearch q2).search_id ≤ u.search_id := sessionReach_id_le hu
  have h3 := hinv.1 e he
  simp [Session.doSearch] at h1 h2
  rw [h3] at hgen
  simp [Session.doSearch] at hgen
  omega

def wq1 : SearchQuery := SearchQuery.mkText "one" false false [] []
def wq2 : SearchQuery := SearchQuery.mkText "two" false false [] []
def wRange1 : MatchRange := ⟨3, 6⟩
def wRange2 : MatchRange := ⟨8, 11⟩

def wS1 : Session := Session.init.doSearch wq1
def wS2 : Session :=
  { wS1 with match_ranges := [],
             pending_search := some { gen := 1, phase := .streaming } }
def wT : Session :=
  { wS2 with match_ranges := wS2.match_ranges ++ [{ gen := 1, range := wRange1 }] }
def wU1 : Session := wT.doSearch wq2
def wU2 : Session :=
  { wU1 with match_ranges := [],
             pending_search := some { gen := 2, phase := .streaming } }
def wU : Session :=
  { wU2 with match_ranges := wU2.match_ranges ++ [{ gen := 2, range := wRange2 }] }

/-- Witness for C1: on the concrete interleaving search q1, stream
start, one q1 result pushed, search q2, stream start, one q2 result
pushed, the q1 result (pushed under generation 1) is absent from the
final match_ranges. -/
theorem stale_results_discarded_witness :
    ({ gen := 1, range := wRange1 } : TaggedRange) ∉ wU.match_ranges := by
  intro hmem
  have hReachT : SessionReach (Session.init.doSearch wq1) wT :=
    .step (.step (.refl wS1) (SessionStep.backend_ok wS1 1 rfl))
      (SessionStep.push wS2 1 wRange1 rfl)
  have hReachU : SessionReach (wT.doSearch wq2) wU :=
    .step (.step (.refl wU1) (SessionStep.backend_ok wU1 2 rfl))
      (SessionStep.push wU2 2 wRange2 rfl)
  exact stale_results_discarded wq1 wq2 Session.init wT wU (.refl _) hReachT hReachU
    { gen := 1, range := wRange1 } hmem rfl

/-! ### Claim C6: backend error handling -/

def eS1 : Session := Session.init.doSearch wq1
def eErr : Session :=
  { eS1 with pending_search := some { gen := 1, phase := .errored } }

/-- C6 evaluated at the failing input: a search whose backend future
resolves to an error reaches, without any panic step, a terminal state
in which match_ranges is untouched but pending_search is still stored,
so is_pending remains true after the terminal error: the early return
through log_err and the question mark skips the pending_search.take
call.  This contradicts the claim that the pending flag is cleared. -/
theorem backend_error_leaves_pending_set :
    SessionReach Session.init eErr ∧
    eErr.is_pending = true ∧
    eErr.match_ranges = [] := by
  refine ⟨?_, rfl, rfl⟩
  exact .step (.step (.refl Session.init) (SessionStep.search wq1 Session.init))
    (SessionStep.backend_err eS1 1 rfl)

/-! ### Claim C2: glob compilation of both fields -/

def okGlobW : String → Bool := fun s => !(s == "[")
def okRegexW : String → Bool := fun s => !(s == "(")

def vC2 : QueryViewState :=
  { query_text := "x", included_text := "[", excluded_text := "[",
    regex := false, whole_word := false, case_sensitive := false,
    panels_with_errors := { query := false, inc := false, exc := false } }

/-- Counterexample to C2: with invalid glob text in both fields (under a
compiler that rejects the text of both), build_search_query records only
the Include error; the Exclude error marker is left false even though
its text also fails to compile, so simultaneous errors are not both
recorded. -/
theorem build_query_both_invalid_cex :
    load_glob_set okGlobW vC2.included_text = none ∧
    load_glob_set okGlobW vC2.excluded_text = none ∧
    (build_search_query okGlobW okRegexW vC2).1.panels_with_errors.inc = true ∧
    (build_search_query okGlobW okRegexW vC2).1.panels_with_errors.exc = false := by
  refine ⟨rfl, rfl, rfl, rfl⟩

/-- C2 as amended: glob compilation is attempted for the include field
first, and a failure there returns immediately with only the Include
marker inserted; the exclude field is not compiled and its marker is
left unchanged.  Exclude compilation is only attempted when the include
field compiles. -/
theorem build_query_include_short_circuit (okG okR : String → Bool) (v : QueryViewState)
    (h : load_glob_set okG v.included_text = none) :
    build_search_query okG okR v =
      ({ v with panels_with_errors := { v.panels_with_errors with inc := true } }, none) := by
  unfold build_search_query
  rw [h]

/-- Witness for C2 as amended, at the concrete state with both fields
invalid: the result marks Include and returns no query, with the
Exclude marker untouched. -/
theorem build_query_include_short_circuit_witness :
    build_search_query okGlobW okRegexW vC2 =
      ({ vC2 with panels_with_errors := { vC2.panels_with_errors with inc := true } },
       none) :=
  build_query_include_short_circuit okGlobW okRegexW vC2 rfl

/-! ### Claim C3: error markers on success and failure -/

def vC3 : QueryViewState :=
  { query_text := "(", included_text := "", excluded_text := "",
    regex := false, whole_word := false, case_sensitive := false,
    panels_with_errors := { query := true, inc := false, exc := false } }

/-- Counterexample to C3: a build on the non-regex path succeeds
(returns a query) while a stale Query error marker, left over from an
earlier regex failure, remains set: success does not clear all three
markers on the non-regex path. -/
theorem build_query_nonregex_stale_marker_cex :
    ((build_search_query okGlobW okRegexW vC3).2).isSome = true ∧
    (build_search_query okGlobW okRegexW vC3).1.panels_with_errors.query = true := by
  refine ⟨rfl, rfl⟩

/-- C3 as amended, both halves in one contract.  Success half: whenever
build_search_query returns Some query, the Include and Exclude markers
are absent afterwards, and the Query marker is absent if the regex path
was taken but is left at its previous value on the non-regex path.
Failure half: whenever it returns None, no query is handed to the
caller and the first failing field encountered is marked, fields after
it being left unexamined: an include-glob failure marks only Include
and leaves the Exclude and Query markers at their previous values; an
exclude-glob failure (include having compiled) marks Exclude, clears
Include and leaves the Query marker at its previous value; a regex
compilation failure (both glob fields having compiled) marks Query and
clears Include and Exclude. -/
theorem build_query_marker_contract (okG okR : String → Bool) (v : QueryViewState) :
    (∀ q, (build_search_query okG okR v).2 = some q →
      (build_search_query okG okR v).1.panels_with_errors.inc = false ∧
      (build_search_query okG okR v).1.panels_with_errors.exc = false ∧
      (build_search_query okG okR v).1.panels_with_errors.query =
        (if v.regex then false else v.panels_with_errors.query)) ∧
    (load_glob_set okG v.included_text = none →
      build_search_query okG okR v =
        ({ v with panels_with_errors := { v.panels_with_errors with inc := true } },
         none)) ∧
    (∀ fs, load_glob_set okG v.included_text = some fs →
      load_glob_set okG v.excluded_text = none →
      build_search_query okG okR v =
        ({ v with panels_with_errors :=
            { v.panels_with_errors with inc := false, exc := true } }, none)) ∧
    (∀ fs gs, load_glob_set okG v.included_text = some fs →
      load_glob_set okG v.excluded_text = some gs →
      v.regex = true → okR v.query_text = false →
      build_search_query okG okR v =
        ({ v with panels_with_errors :=
            { v.panels_with_errors with query := true, inc := false, exc := false } },
         none)) := by
  refine ⟨?_, ?_, ?_, ?_⟩
  · intro q h
    unfold build_search_query at h ⊢
    split at h
    · simp at h
    · split at h
      · simp at h
      · split at h
        · split at h
          · simp_all
          · simp at h
        · simp_all
  · intro h
    unfold build_search_query
    rw [h]
  · intro fs h1 h2
    unfold build_search_query
    rw [h1, h2]
  · intro fs gs h1 h2 hr hok
    unfold build_search_query
    rw [h1, h2]
    simp only [hr, if_true]
    unfold SearchQuery.mkRegex
    rw [hok]
    simp

def vC3w : QueryViewState :=
  { query_text := "abc", included_text := " *.rs , ", excluded_text := "*.lock",
    regex := false, whole_word := false, case_sensitive := false,
    panels_with_errors := { query := true, inc := true, exc := true } }

def vC3x : QueryViewState :=
  { query_text := "x", included_text := "*.rs", excluded_text := "[",
    regex := false, whole_word := false, case_sensitive := false,
    panels_with_errors := { query := false, inc := true, exc := false } }

def vC3r : QueryViewState :=
  { query_text := "(", included_text := "", excluded_text := "",
    regex := true, whole_word := false, case_sensitive := false,
    panels_with_errors := { query := false, inc := false, exc := false } }

/-- Witness for C3 as amended, exercising three concrete paths of the
contract: a non-regex success clearing Include and Exclude while the
stale Query marker survives; an exclude-glob failure marking Exclude
while clearing Include; and a regex failure marking Query. -/
theorem build_query_marker_contract_witness :
    ((build_search_query okGlobW okRegexW vC3w).1.panels_with_errors.inc = false ∧
     (build_search_query okGlobW okRegexW vC3w).1.panels_with_errors.exc = false ∧
     (build_search_query okGlobW okRegexW vC3w).1.panels_with_errors.query =
       (if vC3w.regex then false else vC3w.panels_with_errors.query)) ∧
    (build_search_query okGlobW okRegexW vC3x =
      ({ vC3x with panels_with_errors :=
          { vC3x.panels_with_errors with inc := false, exc := true } }, none)) ∧
    (build_search_query okGlobW okRegexW vC3r =
      ({ vC3r with panels_with_errors :=
          { vC3r.panels_with_errors with query := true, inc := false, exc := false } },
       none)) :=
  ⟨(build_query_marker_contract okGlobW okRegexW vC3w).1
      (SearchQuery.mkText "abc" false false ["*.rs"] ["*.lock"]) rfl,
   (build_query_marker_contract okGlobW okRegexW vC3x).2.2.1 ["*.rs"] rfl rfl,
   (build_query_marker_contract okGlobW okRegexW vC3r).2.2.2 [] [] rfl rfl rfl rfl⟩

/-! ### Claim C4: navigation from an empty cursor -/

def v4w : NavView :=
  { match_ranges := [⟨0, 2⟩], model_search_id := 1, search_id := 1,
    active_match_index := none, selected := none, caret := 0, query_focused := false }

/-- Counterexample to C4: with a non-empty match set and
active_match_index None, select_match leaves the view unchanged in both
directions and in particular does not select index 0 (the first
match). -/
theorem select_match_none_cex :
    select_match .Next v4w = v4w ∧
    select_match .Prev v4w = v4w ∧
    ¬ (select_match .Next v4w).selected = some ⟨0, 2⟩ ∧
    v4w.match_ranges ≠ [] := by
  refine ⟨rfl, rfl, by decide, by decide⟩

/-- C4 as amended: whenever active_match_index is None, select_match is
a no-op regardless of direction and of the match set, so no match (in
particular not the first one) is selected; with an empty match set the
active index is None (by the C5 invariant) and hence nothing is
selected there either. -/
theorem select_match_none_is_noop (dir : Direction) (v : NavView)
    (h : v.active_match_index = none) : select_match dir v = v := by
  unfold select_match
  rw [h]

/-- Witness for C4 as amended at a concrete view with matches present
and no active index. -/
theorem select_match_none_is_noop_witness : select_match .Next v4w = v4w :=
  select_match_none_is_noop .Next v4w rfl

/-! ### Claim C5: active match index invariant -/

def v5c : NavView :=
  { match_ranges := [⟨0, 1⟩], model_search_id := 1, search_id := 1,
    active_match_index := some 0, selected := none, caret := 5, query_focused := false }

/-- Counterexample to C5: resynchronisation with the caret positioned
past every match range sets active_match_index to None although
match_ranges is non-empty, so None is not equivalent to an empty match
set. -/
theorem update_match_index_none_nonempty_cex :
    (update_match_index v5c).active_match_index = none ∧
    (update_match_index v5c).match_ranges ≠ [] := by
  refine ⟨rfl, by decide⟩

/-- C5 as amended: after a model change notification, a navigation call
or a selection resynchronisation, an empty match set forces
active_match_index to None, and any Some index is strictly below the
match count; however None can also occur with a non-empty match set,
when the caret lies outside (past) every match range after
resynchronisation. -/
theorem nav_index_validity (dir : Direction) (v : NavView) (h : NavWF v) :
    NavWF (model_changed v) ∧
    NavWF (update_match_index v) ∧
    NavWF (select_match dir v) := by
  refine ⟨?_, navWF_update v, navWF_select dir v h⟩
  unfold model_changed
  split
  · constructor
    · intro _; rfl
    · intro i hi; simp at hi
  · simp only []
    exact navWF_ite _ _ _
      (navWF_clear_focus _
        (navWF_ite _ _ _
          (navWF_jump _ (navWF_refresh _ (navWF_update _)))
          (navWF_refresh _ (navWF_update _))))
      (navWF_ite _ _ _
        (navWF_jump _ (navWF_refresh _ (navWF_update _)))
        (navWF_refresh _ (navWF_update _)))

def v5w : NavView :=
  { match_ranges := [⟨10, 13⟩, ⟨15, 18⟩], model_search_id := 2, search_id := 1,
    active_match_index := some 0, selected := some ⟨10, 13⟩, caret := 13,
    query_focused := true }

/-- Witness for C5 as amended at a concrete well-formed view. -/
theorem nav_index_validity_witness :
    NavWF (model_changed v5w) ∧
    NavWF (update_match_index v5w) ∧
    NavWF (select_match .Next v5w) :=
  nav_index_validity .Next v5w
    ⟨fun h => by simp [v5w] at h, fun i hi => by simp [v5w] at hi ⊢; omega⟩

/-! ### Claim C10: incremental batches and the position of the user -/

def v10c : NavView :=
  { match_ranges := [⟨10, 13⟩, ⟨15, 18⟩], model_search_id := 1, search_id := 1,
    active_match_index := some 0, selected := some ⟨10, 13⟩, caret := 13,
    query_focused := false }

/-- Counterexample to C10: a model change arriving with an unchanged
search_id (an append within the same execution) still moves the results
editor selection: model_changed resets the active index to 0 and
performs an unconditional Next navigation, so the selection jumps from
the first match to the second. -/
theorem model_changed_same_id_moves_selection_cex :
    v10c.model_search_id = v10c.search_id ∧
    v10c.selected = some ⟨10, 13⟩ ∧
    (model_changed v10c).selected = some ⟨15, 18⟩ := by
  refine ⟨rfl, rfl, by decide⟩

/-- C10 as amended: when the search_id of the model equals that of the view
recorded search_id (an incremental batch within one execution) and
matches are present, model_changed performs no jump-to-first-match
selection and no focus move: it is exactly the unconditional reset of
the active index to 0 followed by a Next navigation and a
resynchronisation, which itself can move the selection. -/
theorem model_changed_same_id_no_jump (v : NavView)
    (hid : v.model_search_id = v.search_id) (hne : ¬ v.match_ranges.isEmpty = true) :
    model_changed v =
      update_match_index (select_match .Next { v with active_match_index := some 0 }) := by
  unfold model_changed
  rw [if_neg hne]
  simp only []
  generalize hu : update_match_index
    (select_match Direction.Next { v with active_match_index := some 0 }) = u
  have heq : u.model_search_id = u.search_id := by
    rw [← hu]
    show (select_match .Next { v with active_match_index := some 0 }).model_search_id
      = (select_match .Next { v with active_match_index := some 0 }).search_id
    rw [select_match_search_id, select_match_model_search_id]
    exact hid
  obtain ⟨mr, mid, sid, ami, sel, car, qf⟩ := u
  simp only at heq
  subst heq
  simp [refresh_search_id, jump_to_first_match, clear_query_focus]

/-- Witness for C10 as amended at a concrete same-search batch. -/
theorem model_changed_same_id_no_jump_witness :
    model_changed v10c =
      update_match_index (select_match .Next { v10c with active_match_index := some 0 }) :=
  model_changed_same_id_no_jump v10c rfl (by decide)

/-! ### Claim C7: indexing progress listener -/

def vC7 : SemanticView :=
  { semantic := some { file_count := 5, outstanding_file_count := 5, search_task := none },
    query_text := "", next_task_id := 0, dispatched := [], match_ranges := [],
    notify_count := 0 }

/-- C7 evaluated at the failing input: with channel values 5, 3, 0, 4
the listener replaces outstanding_file_count with each received value
and notifies each time (four notifications), but it does not stop when
the value 0 arrives: the 4 delivered afterwards is still consumed and
overwrites the 0, because the conditional return after a zero exits
only the update closure.  This contradicts the claim that the listener
stops consuming as soon as a value of 0 is received. -/
theorem progress_listener_continues_after_zero :
    (progress_listener [5, 3, 0, 4] vC7).semantic =
      some { file_count := 5, outstanding_file_count := 4, search_task := none } ∧
    (progress_listener [5, 3, 0, 4] vC7).notify_count = 4 ∧
    (progress_listener [5, 3, 0] vC7).semantic =
      some { file_count := 5, outstanding_file_count := 0, search_task := none } := by
  refine ⟨rfl, rfl, rfl⟩

/-! ### Claim C8: at most one outstanding semantic query task -/

def vC8 : SemanticView :=
  { semantic := some { file_count := 3, outstanding_file_count := 0, search_task := some 7 },
    query_text := "q", next_task_id := 8, dispatched := [(7, "old")], match_ranges := [],
    notify_count := 0 }

/-- Counterexample to C8: with semantic mode active, indexing finished,
and query task 7 still running, a new search request is not a no-op: it
dispatches a new request and stores the fresh task 8 in search_task,
replacing (and thereby dropping) the running task. -/
theorem semantic_request_not_noop_cex :
    semantic_search_request true vC8 ≠ vC8 ∧
    (semantic_search_request true vC8).semantic =
      some { file_count := 3, outstanding_file_count := 0, search_task := some 8 } ∧
    (semantic_search_request true vC8).dispatched = [(7, "old"), (8, "q")] := by
  refine ⟨by decide, rfl, rfl⟩

/-- C8 as amended: the only gate on issuing a semantic query is
outstanding_file_count; whenever semantic mode is active, indexing is
complete and the global semantic index exists, a new request dispatches
the phrase and replaces whatever task was stored in search_task with
the fresh one (the replaced task is dropped, hence cancelled), whatever
the previous search_task was. -/
theorem semantic_request_replaces_task (v : SemanticView) (sem : SemanticSearchState)
    (hs : v.semantic = some sem) (hidle : sem.outstanding_file_count = 0) :
    (semantic_search_request true v).semantic =
      some { sem with search_task := some v.next_task_id } ∧
    (semantic_search_request true v).dispatched =
      v.dispatched ++ [(v.next_task_id, v.query_text)] := by
  unfold semantic_search_request
  rw [hs]
  simp [hidle]

/-- Witness for C8 as amended at the concrete state with task 7
running. -/
theorem semantic_request_replaces_task_witness :
    (semantic_search_request true vC8).semantic =
      some { file_count := 3, outstanding_file_count := 0, search_task := some vC8.next_task_id } ∧
    (semantic_search_request true vC8).dispatched =
      vC8.dispatched ++ [(vC8.next_task_id, vC8.query_text)] :=
  semantic_request_replaces_task vC8
    { file_count := 3, outstanding_file_count := 0, search_task := some 7 } rfl rfl

/-! ### Claim C9: semantic query completion -/

def vC9 : SemanticView :=
  { semantic := some { file_count := 3, outstanding_file_count := 0, search_task := some 8 },
    query_text := "q", next_task_id := 9, dispatched := [(8, "q")], match_ranges := [],
    notify_count := 0 }

/-- C9 evaluated at the failing input: when the semantic query task
completes with a non-empty ranked result list, the handler clears the
running-task marker but leaves the match ranges of the session untouched:
the results are only logged and dropped at the TODO in the source, so
the results of the session are never updated.  This contradicts the claim
that on completion the results of the session are updated. -/
theorem semantic_completion_drops_results :
    (semantic_search_completed [⟨0, 4⟩] vC9).semantic =
      some { file_count := 3, outstanding_file_count := 0, search_task := none } ∧
    (semantic_search_completed [⟨0, 4⟩] vC9).match_ranges = [] ∧
    (semantic_search_completed [⟨0, 4⟩] vC9).dispatched = vC9.dispatched := by
  refine ⟨rfl, rfl, rfl⟩

end ZedSearch
